import Mathlib

/-!
Shallow embedding of the project-filtering logic of the repository
`z4none/blog-with-notion`.

Two scripts implement a client-side filter controller for the projects page:

* the two-axis controller (project type AND technology) of the standalone
  projects script: `initTypeFilters`, `initTechFilters`, `createFilterButton`,
  `applyFilters`;
* the single-axis controller `ProjectsManager.setupFiltering` of
  `hugo/assets/ts/projects.ts`.

DOM state is embedded explicitly: a card records its `data-project-type`
attribute (`none` when absent), the trimmed text of its `.project-tag-badge`
descendants, the presence of the `hidden` class, and its inline `animation`
style.  Buttons record their `data-value`, label, and `active` class.
-/

/-- A project card as rendered in the page markup. -/
@[ext]
structure Card where
  /-- the `data-project-type` attribute; `none` when the attribute is absent -/
  projectType : Option String
  /-- trimmed `textContent` of the `.project-tag-badge` descendants, in DOM order -/
  tagBadges : List String
  /-- whether the `hidden` class is present -/
  hidden : Bool
  /-- current inline `animation` style value -/
  animStyle : String
  deriving Repr, DecidableEq

/-- The module-level mutable selection state `currentFilter`. -/
@[ext]
structure FilterState where
  type : String
  tech : String
  deriving Repr, DecidableEq

/-- Initial state: `{ type: 'all', tech: 'all' }`. -/
def initialFilter : FilterState := { type := "all", tech := "all" }

/-- A filter button: `data-value`, text label, and the `active` class flag. -/
@[ext]
structure Button where
  value : String
  label : String
  active : Bool
  deriving Repr, DecidableEq

/-- `createFilterButton(value, label, isActive, _)`: the DOM element it builds
(the click handler it installs is modelled by `clickButton` below). -/
def createFilterButton (value label : String) (isActive : Bool) : Button :=
  { value := value, label := label, active := isActive }

/-- JS `Set` insertion with a seen-list accumulator: keeps the first
occurrence of each string, in order of first appearance.  `Array.from` of a
JS `Set` iterates in insertion order. -/
def dedupFirstAux (seen : List String) : List String → List String
  | [] => []
  | x :: xs =>
    if x ∈ seen then dedupFirstAux seen xs
    else x :: dedupFirstAux (x :: seen) xs

/-- Distinct values in order of first appearance, as `Array.from(new Set(l))`. -/
def dedupFirst (l : List String) : List String := dedupFirstAux [] l

/-- The raw type values scanned by `initTypeFilters`: `card.dataset.projectType`
is added only when truthy (`if (type) typeSet.add(type)`), so a missing
attribute or an empty string is skipped. -/
def typeValues (cards : List Card) : List String :=
  cards.filterMap fun c =>
    match c.projectType with
    | some t => if t = "" then none else some t
    | none => none

/-- `initTypeFilters`: the "all" button (active), then one button per distinct
type, sorted by `Array.from(typeSet).sort()` (lexicographic). -/
def initTypeFilters (cards : List Card) : List Button :=
  createFilterButton "all" "全部" true ::
    (List.insertionSort (· ≤ ·) (dedupFirst (typeValues cards))).map
      (fun t => createFilterButton t t false)

/-- All badge texts scanned by `initTechFilters`, in card/DOM order.  Every
trimmed `textContent` is added unconditionally (`technologySet.add(tech)`),
including the empty string. -/
def techValues (cards : List Card) : List String :=
  cards.flatMap (·.tagBadges)

/-- Number of badge occurrences of `tech` across all cards: the frequency the
source's comment `// Sort by count (descending)` intends to sort by. -/
def occurrenceCount (cards : List Card) (tech : String) : Nat :=
  (techValues cards).count tech

/-- Properties visible on a plain object literal through its prototype chain:
reading `techCount[k]` for such `k` yields an inherited function or object
(truthy) instead of `undefined`, so `(techCount[k] || 0) + 1` concatenates to
a non-numeric string; for `__proto__` the write is a silent no-op, so the
read keeps returning `Object.prototype` itself. -/
def objectPrototypeKeys : List String :=
  ["constructor", "hasOwnProperty", "isPrototypeOf", "propertyIsEnumerable",
   "toLocaleString", "toString", "valueOf", "__proto__", "__defineGetter__",
   "__defineSetter__", "__lookupGetter__", "__lookupSetter__"]

/-- The value `techCount[tech]` holds when the sort comparator runs: a number
for ordinary badge texts, and a non-numeric value (garbage string or
`Object.prototype`) for badge texts that collide with `Object.prototype`
properties. -/
inductive CountVal where
  | num : Nat → CountVal
  | junk : CountVal
  deriving Repr, DecidableEq

/-- Modelled read of `techCount[tech]` at comparator time. -/
def techCountRead (cards : List Card) (tech : String) : CountVal :=
  if objectPrototypeKeys.contains tech then CountVal.junk
  else CountVal.num (occurrenceCount cards tech)

/-- The comparator `(a, b) => techCount[b] - techCount[a]` as observed by
`Array.prototype.sort`: a numeric difference when both reads are numbers, and
`NaN` otherwise, which the sort treats as `+0` (a tie). -/
def techCompare (cards : List Card) (a b : String) : Int :=
  match techCountRead cards b, techCountRead cards a with
  | CountVal.num nb, CountVal.num na => (nb : Int) - (na : Int)
  | _, _ => 0

/-- `initTechFilters`: the "all" button (active), then one button per distinct
badge text, ordered by a stable sort (JS `Array.prototype.sort` is stable)
under the comparator above — descending count on ordinary badge texts, ties
wherever a `Object.prototype`-colliding badge text is involved. -/
def initTechFilters (cards : List Card) : List Button :=
  createFilterButton "all" "全部" true ::
    (List.insertionSort (fun a b => techCompare cards a b ≤ 0)
        (dedupFirst (techValues cards))).map
      (fun t => createFilterButton t t false)

/-- `typeMatch`: `currentFilter.type === 'all' || cardType === currentFilter.type`.
A card without the attribute (`undefined`) never equals a string filter value. -/
def typeMatch (st : FilterState) (c : Card) : Bool :=
  st.type == "all" || c.projectType == some st.type

/-- `techMatch`: `currentFilter.tech === 'all' || cardTechs.includes(currentFilter.tech)`. -/
def techMatch (st : FilterState) (c : Card) : Bool :=
  st.tech == "all" || c.tagBadges.contains st.tech

/-- Final visibility: `typeMatch && techMatch` (AND logic). -/
def matchesFilter (st : FilterState) (c : Card) : Bool :=
  typeMatch st c && techMatch st c

/-- The inline animation value the pass leaves on a visible card. -/
def fadeInUpStyle : String := "fadeInUp 0.5s ease-out forwards"

/-- Per-card effect of `applyFilters`: a matching card loses the `hidden` class
and has its entrance animation restarted (net inline value `fadeInUpStyle`);
a non-matching card gains the `hidden` class and keeps its animation value. -/
def applyFilterCard (st : FilterState) (c : Card) : Card :=
  if matchesFilter st c then
    { c with hidden := false, animStyle := fadeInUpStyle }
  else
    { c with hidden := true }

/-- `visibleCount` accumulated by the loop in `applyFilters`. -/
def visibleCount (st : FilterState) (cards : List Card) : Nat :=
  (cards.filter (matchesFilter st)).length

/-- Number of cards without the `hidden` class. -/
def countVisible (cards : List Card) : Nat :=
  (cards.filter (fun c => !c.hidden)).length

/-- The whole page state the controller mutates: the cards, the two button
containers, the selection state, and the inline `display` of the
`#empty-state` element and the `#projects-grid` container. -/
@[ext]
structure PageState where
  cards : List Card
  typeButtons : List Button
  techButtons : List Button
  filter : FilterState
  /-- `emptyState.style.display === 'block'` -/
  emptyStateShown : Bool
  /-- `projectsGrid.style.display === 'grid'` (as opposed to `'none'`) -/
  gridShown : Bool
  deriving Repr, DecidableEq

/-- `applyFilters`: re-evaluate every card against the current filter, then
show the empty state and hide the grid exactly when `visibleCount === 0`. -/
def applyFilters (p : PageState) : PageState :=
  { p with
    cards := p.cards.map (applyFilterCard p.filter)
    emptyStateShown := visibleCount p.filter p.cards == 0
    gridShown := !(visibleCount p.filter p.cards == 0) }

/-- The page right after `DOMContentLoaded`: filters initialised, no pass run
yet (the script never calls `applyFilters` during initialisation). -/
def initPage (cards : List Card) : PageState :=
  { cards := cards
    typeButtons := initTypeFilters cards
    techButtons := initTechFilters cards
    filter := initialFilter
    emptyStateShown := false
    gridShown := true }

/-- Which button container a click handler targets. -/
inductive Axis where
  | type
  | tech
  deriving Repr, DecidableEq

/-- The sibling update of the click handler: remove `active` from every
`.filter-btn` in the container, then add it to the clicked button (index `i`). -/
def activateOnly : Nat → List Button → List Button
  | _, [] => []
  | 0, b :: bs =>
    { b with active := true } :: bs.map (fun x => { x with active := false })
  | Nat.succ i, b :: bs =>
    { b with active := false } :: activateOnly i bs

/-- The click handler installed by `createFilterButton` on button `i` of the
given axis: update the active classes, set `currentFilter[filterType] = value`,
then run `applyFilters`.  Clicking a non-existent button is a no-op. -/
def clickButton (a : Axis) (i : Nat) (p : PageState) : PageState :=
  match a with
  | .type =>
    match p.typeButtons[i]? with
    | none => p
    | some b =>
      applyFilters
        { p with
          typeButtons := activateOnly i p.typeButtons
          filter := { p.filter with type := b.value } }
  | .tech =>
    match p.techButtons[i]? with
    | none => p
    | some b =>
      applyFilters
        { p with
          techButtons := activateOnly i p.techButtons
          filter := { p.filter with tech := b.value } }

/-- A user session: a sequence of button clicks. -/
def runClicks (p : PageState) : List (Axis × Nat) → PageState
  | [] => p
  | (a, i) :: rest => runClicks (clickButton a i p) rest

/-- Exactly one button in the list carries the `active` class. -/
def exactlyOneActive (bs : List Button) : Prop :=
  (bs.filter (·.active)).length = 1

/-!
Single-axis controller from `hugo/assets/ts/projects.ts`
(`ProjectsManager.setupFiltering`).
-/

/-- A card as seen by the single-axis controller: trimmed texts of its
`.tech-tag` descendants, plus the `hidden` / `fade-out` classes and the
inline animation. -/
@[ext]
structure TechCard where
  techTags : List String
  hidden : Bool
  fadeOut : Bool
  animStyle : String
  deriving Repr, DecidableEq

/-- Page state of the single-axis controller: whether `.projects-header`
exists, the cards, and the inserted filter panel (`none` when the panel was
never created, in which case no click handlers exist either). -/
@[ext]
structure SinglePage where
  hasHeader : Bool
  cards : List TechCard
  filterPanel : Option (List Button)
  deriving Repr, DecidableEq

/-- `setupFiltering`: return early when `.projects-header` is missing or no
`.tech-tag` text exists anywhere; otherwise insert the panel: the "all"
button (active) followed by one button per distinct tag text in `Set`
insertion order. -/
def setupFiltering (hasHeader : Bool) (cards : List TechCard) : SinglePage :=
  if hasHeader then
    if (dedupFirst (cards.flatMap (·.techTags))).isEmpty then
      { hasHeader := hasHeader, cards := cards, filterPanel := none }
    else
      { hasHeader := hasHeader, cards := cards,
        filterPanel := some (createFilterButton "all" "全部项目" true ::
          (dedupFirst (cards.flatMap (·.techTags))).map
            (fun t => createFilterButton t t false)) }
  else
    { hasHeader := hasHeader, cards := cards, filterPanel := none }

/-- Per-card effect of a single-axis filter click once its timeouts settle:
a matching card loses `hidden` and `fade-out` and gets the entrance
animation; a non-matching card gains `fade-out` and then `hidden`. -/
def applySingleFilterCard (filter : String) (c : TechCard) : TechCard :=
  if filter == "all" || c.techTags.contains filter then
    { c with hidden := false, fadeOut := false,
             animStyle := "fadeInUp 0.6s ease-out forwards" }
  else
    { c with fadeOut := true, hidden := true }

/-- Click handler of the single-axis controller on panel button `i`: update
the active classes across all `.filter-btn` elements, then re-filter every
card against the clicked value.  Without a panel there are no buttons and no
handlers, so nothing happens. -/
def singleClick (p : SinglePage) (i : Nat) : SinglePage :=
  match p.filterPanel with
  | none => p
  | some bs =>
    match bs[i]? with
    | none => p
    | some b =>
      { p with
        filterPanel := some (activateOnly i bs)
        cards := p.cards.map (applySingleFilterCard b.value) }

/-- A user session on the single-axis page. -/
def runSingleClicks (p : SinglePage) : List Nat → SinglePage
  | [] => p
  | i :: rest => runSingleClicks (singleClick p i) rest

/-- The cards currently visible (no `hidden` class), in DOM order. -/
def visibleCards (p : PageState) : List Card :=
  p.cards.filter (fun c => !c.hidden)

/-! ### Helper lemmas -/

theorem filter_active_map_inactive (l : List String) :
    ((l.map (fun t => createFilterButton t t false)).filter (·.active)) = [] := by
  induction l with
  | nil => rfl
  | cons x xs ih => simp [createFilterButton, ih]

theorem exactlyOneActive_initTypeFilters (cards : List Card) :
    exactlyOneActive (initTypeFilters cards) := by
  simp [exactlyOneActive, initTypeFilters, createFilterButton,
    filter_active_map_inactive]

theorem exactlyOneActive_initTechFilters (cards : List Card) :
    exactlyOneActive (initTechFilters cards) := by
  simp [exactlyOneActive, initTechFilters, createFilterButton,
    filter_active_map_inactive]

theorem filter_active_deactivated (bs : List Button) :
    ((bs.map (fun x => { x with active := false })).filter (·.active)) = [] := by
  induction bs with
  | nil => rfl
  | cons b bs ih => simp [ih]

theorem exactlyOneActive_activateOnly :
    ∀ (i : Nat) (bs : List Button), i < bs.length →
      exactlyOneActive (activateOnly i bs)
  | _, [], h => absurd h (by simp)
  | 0, b :: bs, _ => by
    simp [activateOnly, exactlyOneActive, filter_active_deactivated]
  | Nat.succ i, b :: bs, h => by
    have ih := exactlyOneActive_activateOnly i bs (Nat.lt_of_succ_lt_succ h)
    simpa [activateOnly, exactlyOneActive] using ih

theorem clickButton_buttons_inv (a : Axis) (i : Nat) (p : PageState)
    (ht : exactlyOneActive p.typeButtons) (hh : exactlyOneActive p.techButtons) :
    exactlyOneActive (clickButton a i p).typeButtons ∧
      exactlyOneActive (clickButton a i p).techButtons := by
  cases a
  · unfold clickButton
    cases hb : p.typeButtons[i]? with
    | none => exact ⟨ht, hh⟩
    | some b =>
      refine ⟨?_, hh⟩
      exact exactlyOneActive_activateOnly i _ (List.getElem?_eq_some.mp hb).1
  · unfold clickButton
    cases hb : p.techButtons[i]? with
    | none => exact ⟨ht, hh⟩
    | some b =>
      refine ⟨ht, ?_⟩
      exact exactlyOneActive_activateOnly i _ (List.getElem?_eq_some.mp hb).1

theorem runClicks_buttons_inv (clicks : List (Axis × Nat)) :
    ∀ p : PageState, exactlyOneActive p.typeButtons →
      exactlyOneActive p.techButtons →
      exactlyOneActive (runClicks p clicks).typeButtons ∧
        exactlyOneActive (runClicks p clicks).techButtons := by
  induction clicks with
  | nil => exact fun p ht hh => ⟨ht, hh⟩
  | cons ci rest ih =>
    intro p ht hh
    obtain ⟨a, i⟩ := ci
    obtain ⟨h1, h2⟩ := clickButton_buttons_inv a i p ht hh
    exact ih _ h1 h2

theorem matchesFilter_iff (st : FilterState) (c : Card) :
    matchesFilter st c = true ↔
      ((st.type = "all" ∨ c.projectType = some st.type) ∧
       (st.tech = "all" ∨ st.tech ∈ c.tagBadges)) := by
  simp [matchesFilter, typeMatch, techMatch, List.elem_iff]

theorem hidden_applyFilterCard (st : FilterState) (c : Card) :
    (applyFilterCard st c).hidden = !(matchesFilter st c) := by
  unfold applyFilterCard
  split <;> simp_all

theorem matchesFilter_applyFilterCard (st st' : FilterState) (c : Card) :
    matchesFilter st (applyFilterCard st' c) = matchesFilter st c := by
  unfold applyFilterCard
  split <;> rfl

theorem projectType_applyFilterCard (st : FilterState) (c : Card) :
    (applyFilterCard st c).projectType = c.projectType := by
  unfold applyFilterCard
  split <;> rfl

theorem tagBadges_applyFilterCard (st : FilterState) (c : Card) :
    (applyFilterCard st c).tagBadges = c.tagBadges := by
  unfold applyFilterCard
  split <;> rfl

theorem animStyle_applyFilterCard (st : FilterState) (c : Card) :
    (applyFilterCard st c).animStyle =
      if matchesFilter st c then fadeInUpStyle else c.animStyle := by
  unfold applyFilterCard
  split <;> simp_all

theorem applyFilterCard_idem (st : FilterState) (c : Card) :
    applyFilterCard st (applyFilterCard st c) = applyFilterCard st c := by
  apply Card.ext
  · rw [projectType_applyFilterCard]
  · rw [tagBadges_applyFilterCard]
  · rw [hidden_applyFilterCard, hidden_applyFilterCard,
      matchesFilter_applyFilterCard]
  · rw [animStyle_applyFilterCard, animStyle_applyFilterCard,
      matchesFilter_applyFilterCard]
    by_cases h : matchesFilter st c <;> simp [h]

theorem visibleCount_map_applyFilterCard (st st' : FilterState) (cards : List Card) :
    visibleCount st (cards.map (applyFilterCard st')) = visibleCount st cards := by
  induction cards with
  | nil => rfl
  | cons c cs ih =>
    simp only [visibleCount, List.map_cons, List.filter_cons,
      matchesFilter_applyFilterCard] at *
    split <;> simp [ih]

theorem countVisible_map_applyFilterCard (st : FilterState) (cards : List Card) :
    countVisible (cards.map (applyFilterCard st)) = visibleCount st cards := by
  induction cards with
  | nil => rfl
  | cons c cs ih =>
    simp only [countVisible, visibleCount, List.map_cons, List.filter_cons,
      hidden_applyFilterCard, Bool.not_not] at *
    split <;> simp [ih]

theorem clickButton_type_none (p : PageState) (i : Nat)
    (h : p.typeButtons[i]? = none) : clickButton Axis.type i p = p := by
  unfold clickButton
  rw [h]

theorem clickButton_type_some (p : PageState) (i : Nat) (b : Button)
    (h : p.typeButtons[i]? = some b) :
    clickButton Axis.type i p =
      applyFilters
        { p with
          typeButtons := activateOnly i p.typeButtons
          filter := { p.filter with type := b.value } } := by
  unfold clickButton
  rw [h]

theorem clickButton_tech_none (p : PageState) (j : Nat)
    (h : p.techButtons[j]? = none) : clickButton Axis.tech j p = p := by
  unfold clickButton
  rw [h]

theorem clickButton_tech_some (p : PageState) (j : Nat) (b : Button)
    (h : p.techButtons[j]? = some b) :
    clickButton Axis.tech j p =
      applyFilters
        { p with
          techButtons := activateOnly j p.techButtons
          filter := { p.filter with tech := b.value } } := by
  unfold clickButton
  rw [h]

theorem typeButtons_clickButton_tech (p : PageState) (j : Nat) :
    (clickButton Axis.tech j p).typeButtons = p.typeButtons := by
  unfold clickButton
  cases p.techButtons[j]? <;> rfl

theorem techButtons_clickButton_type (p : PageState) (i : Nat) :
    (clickButton Axis.type i p).techButtons = p.techButtons := by
  unfold clickButton
  cases p.typeButtons[i]? <;> rfl

theorem applyFilterCard_applyFilterCard_of_matches (st st' : FilterState)
    (c : Card) (h : matchesFilter st c = true) :
    applyFilterCard st (applyFilterCard st' c) = applyFilterCard st c := by
  apply Card.ext
  · rw [projectType_applyFilterCard, projectType_applyFilterCard,
      projectType_applyFilterCard]
  · rw [tagBadges_applyFilterCard, tagBadges_applyFilterCard,
      tagBadges_applyFilterCard]
  · rw [hidden_applyFilterCard, hidden_applyFilterCard,
      matchesFilter_applyFilterCard]
  · simp only [animStyle_applyFilterCard, matchesFilter_applyFilterCard, h,
      if_true]

theorem filter_visible_two_passes (stF st1 : FilterState) (cards : List Card) :
    (((cards.map (applyFilterCard st1)).map (applyFilterCard stF)).filter
        (fun c => !c.hidden))
      = (cards.filter (matchesFilter stF)).map (applyFilterCard stF) := by
  induction cards with
  | nil => rfl
  | cons c cs ih =>
    simp only [List.map_cons, List.filter_cons, hidden_applyFilterCard,
      matchesFilter_applyFilterCard, Bool.not_not]
    by_cases h : matchesFilter stF c
    · rw [if_pos h, if_pos h, applyFilterCard_applyFilterCard_of_matches _ _ _ h,
        ih, List.map_cons]
    · rw [if_neg h, if_neg h, ih]

/-! ### Claim theorems -/

/-- C1: `applyFilters` re-evaluates every card and makes it visible iff it
matches every axis: the type axis iff `state.type == 'all'` or the card's
project-type equals `state.type`, and the tech axis iff `state.tech == 'all'`
or `state.tech` is among the card's tag labels (conjunctive AND). -/
theorem applyFilters_visible_iff (p : PageState) :
    (applyFilters p).cards = p.cards.map (applyFilterCard p.filter) ∧
    ∀ c : Card,
      ((applyFilterCard p.filter c).hidden = false ↔
        ((p.filter.type = "all" ∨ c.projectType = some p.filter.type) ∧
         (p.filter.tech = "all" ∨ p.filter.tech ∈ c.tagBadges))) := by
  refine ⟨rfl, fun c => ?_⟩
  rw [hidden_applyFilterCard, ← matchesFilter_iff]
  simp

/-- C3: after `applyFilters`, the `#empty-state` element is shown iff the
number of visible cards is zero, and the `#projects-grid` container is hidden
exactly when the empty state is shown. -/
theorem applyFilters_emptyState (p : PageState) :
    ((applyFilters p).emptyStateShown = true ↔
      countVisible (applyFilters p).cards = 0) ∧
    (applyFilters p).gridShown = !(applyFilters p).emptyStateShown := by
  refine ⟨?_, rfl⟩
  show (visibleCount p.filter p.cards == 0) = true ↔ _
  rw [show (applyFilters p).cards = p.cards.map (applyFilterCard p.filter) from rfl,
    countVisible_map_applyFilterCard]
  simp

/-- C6: when the selection is `all` on both axes, `applyFilters` makes every
card visible. -/
theorem applyFilters_all_visible (p : PageState) (h : p.filter = initialFilter) :
    ∀ c ∈ (applyFilters p).cards, c.hidden = false := by
  intro c hc
  rcases List.mem_map.mp hc with ⟨c0, _, rfl⟩
  rw [hidden_applyFilterCard, h]
  simp [matchesFilter, typeMatch, techMatch, initialFilter]

/-- Witness for C6 on a concrete page and card. -/
theorem applyFilters_all_visible_witness :
    (applyFilterCard initialFilter
      { projectType := some "A", tagBadges := ["x"], hidden := true,
        animStyle := "" }).hidden = false :=
  applyFilters_all_visible
    (initPage
      [{ projectType := some "A", tagBadges := ["x"], hidden := true,
         animStyle := "" }]) rfl
    (applyFilterCard initialFilter
      { projectType := some "A", tagBadges := ["x"], hidden := true,
        animStyle := "" })
    (by decide)

/-- C8: running `applyFilters` twice with unchanged state gives the same page
state as running it once: visible cards, empty-state indicator, grid display,
and the (untouched) button lists are all unchanged by the second run. -/
theorem applyFilters_idem (p : PageState) :
    applyFilters (applyFilters p) = applyFilters p := by
  unfold applyFilters
  simp [visibleCount_map_applyFilterCard, List.map_map, Function.comp,
    applyFilterCard_idem]

theorem exactlyOneActive_setupFiltering (hasHeader : Bool)
    (tcards : List TechCard) (bs : List Button)
    (h : (setupFiltering hasHeader tcards).filterPanel = some bs) :
    exactlyOneActive bs := by
  unfold setupFiltering at h
  by_cases hh : hasHeader
  · rw [if_pos hh] at h
    by_cases ht : (dedupFirst (tcards.flatMap (·.techTags))).isEmpty
    · rw [if_pos ht] at h
      exact Option.noConfusion h
    · rw [if_neg ht] at h
      obtain rfl := Option.some.inj h
      simp [exactlyOneActive, createFilterButton, filter_active_map_inactive]
  · rw [if_neg hh] at h
    exact Option.noConfusion h

theorem singleClick_panel_inv (p : SinglePage) (i : Nat)
    (h : ∀ bs, p.filterPanel = some bs → exactlyOneActive bs) :
    ∀ bs, (singleClick p i).filterPanel = some bs → exactlyOneActive bs := by
  intro bs hbs
  unfold singleClick at hbs
  cases hp : p.filterPanel with
  | none =>
    rw [hp] at hbs
    exact h bs hbs
  | some bs0 =>
    rw [hp] at hbs
    simp only [] at hbs
    cases hb : bs0[i]? with
    | none =>
      rw [hb] at hbs
      exact h bs hbs
    | some b =>
      rw [hb] at hbs
      simp only [Option.some.injEq] at hbs
      subst hbs
      exact exactlyOneActive_activateOnly i bs0 (List.getElem?_eq_some.mp hb).1

theorem runSingleClicks_panel_inv (sclicks : List Nat) :
    ∀ p : SinglePage, (∀ bs, p.filterPanel = some bs → exactlyOneActive bs) →
      ∀ bs, (runSingleClicks p sclicks).filterPanel = some bs →
        exactlyOneActive bs := by
  induction sclicks with
  | nil => exact fun p h => h
  | cons i rest ih =>
    intro p h
    exact ih _ (singleClick_panel_inv p i h)

/-- C2: in both controllers, after any sequence of control clicks exactly one
control of an axis's container carries the `active` class.  The two-axis
controller keeps exactly one active type control and exactly one active tech
control from the initialised page on; the single-axis controller keeps
exactly one active control in its panel whenever the panel exists, since a
click deactivates every `.filter-btn` sibling and activates the clicked one. -/
theorem clicks_exactlyOneActive (cards : List Card)
    (clicks : List (Axis × Nat)) (hasHeader : Bool) (tcards : List TechCard)
    (sclicks : List Nat) :
    (exactlyOneActive ((runClicks (initPage cards) clicks).typeButtons) ∧
      exactlyOneActive ((runClicks (initPage cards) clicks).techButtons)) ∧
    (∀ bs : List Button,
      (runSingleClicks (setupFiltering hasHeader tcards) sclicks).filterPanel =
          some bs →
        exactlyOneActive bs) :=
  ⟨runClicks_buttons_inv clicks (initPage cards)
      (exactlyOneActive_initTypeFilters cards)
      (exactlyOneActive_initTechFilters cards),
   runSingleClicks_panel_inv sclicks (setupFiltering hasHeader tcards)
     (fun bs h => exactlyOneActive_setupFiltering hasHeader tcards bs h)⟩

/-- Witness for C2's single-axis conjunct on a concrete page and panel. -/
theorem clicks_exactlyOneActive_witness :
    exactlyOneActive
      [createFilterButton "all" "全部项目" true,
       createFilterButton "x" "x" false] :=
  (clicks_exactlyOneActive [] [] true
      [{ techTags := ["x"], hidden := false, fadeOut := false,
         animStyle := "" }] []).2
    [createFilterButton "all" "全部项目" true,
     createFilterButton "x" "x" false]
    (by decide)

/-- C7: filtering is order-independent across axes: clicking a type control
and then a tech control leaves the same visible set of cards as clicking
them in the opposite order. -/
theorem clickButton_comm (p : PageState) (i j : Nat) :
    visibleCards (clickButton Axis.tech j (clickButton Axis.type i p)) =
      visibleCards (clickButton Axis.type i (clickButton Axis.tech j p)) := by
  cases hb1 : p.typeButtons[i]? with
  | none =>
    rw [clickButton_type_none p i hb1,
      clickButton_type_none _ i (by rw [typeButtons_clickButton_tech]; exact hb1)]
  | some b1 =>
    cases hb2 : p.techButtons[j]? with
    | none =>
      rw [clickButton_tech_none p j hb2,
        clickButton_tech_none _ j
          (by rw [techButtons_clickButton_type]; exact hb2)]
    | some b2 =>
      rw [clickButton_type_some p i b1 hb1, clickButton_tech_some p j b2 hb2,
        clickButton_tech_some
          (applyFilters
            { p with
              typeButtons := activateOnly i p.typeButtons
              filter := { p.filter with type := b1.value } }) j b2 hb2,
        clickButton_type_some
          (applyFilters
            { p with
              techButtons := activateOnly j p.techButtons
              filter := { p.filter with tech := b2.value } }) i b1 hb1]
      show (((p.cards.map (applyFilterCard { p.filter with type := b1.value })).map
              (applyFilterCard { type := b1.value, tech := b2.value })).filter
            (fun c => !c.hidden))
          = (((p.cards.map (applyFilterCard { p.filter with tech := b2.value })).map
              (applyFilterCard { type := b1.value, tech := b2.value })).filter
            (fun c => !c.hidden))
      rw [filter_visible_two_passes, filter_visible_two_passes]

/-- C9: a card lacking metadata for an axis matches no specific value there:
without a `data-project-type` attribute it is visible iff the type selection
is `all` and the tech axis matches; without tag badges it is visible iff the
tech selection is `all` and the type axis matches.  `applyFilterCard` is
total, so such cards never break the re-evaluation pass. -/
theorem malformed_card_only_matches_all (st : FilterState) (c : Card) :
    (c.projectType = none →
      ((applyFilterCard st c).hidden = false ↔
        (st.type = "all" ∧ (st.tech = "all" ∨ st.tech ∈ c.tagBadges)))) ∧
    (c.tagBadges = [] →
      ((applyFilterCard st c).hidden = false ↔
        ((st.type = "all" ∨ c.projectType = some st.type) ∧
          st.tech = "all"))) := by
  constructor
  · intro h
    rw [hidden_applyFilterCard]
    simp [matchesFilter, typeMatch, techMatch, h, List.elem_iff]
    tauto
  · intro h
    rw [hidden_applyFilterCard]
    simp [matchesFilter, typeMatch, techMatch, h]
    tauto

/-- Witness for C9 on a concrete malformed card. -/
theorem malformed_card_only_matches_all_witness :
    (applyFilterCard initialFilter
        { projectType := none, tagBadges := [], hidden := true,
          animStyle := "" }).hidden = false ↔
      (initialFilter.type = "all" ∧
        (initialFilter.tech = "all" ∨ initialFilter.tech ∈ ([] : List String))) :=
  (malformed_card_only_matches_all initialFilter
    { projectType := none, tagBadges := [], hidden := true,
      animStyle := "" }).1 rfl

theorem flatMap_techTags_eq_nil (cards : List TechCard)
    (h : ∀ c ∈ cards, c.techTags = []) :
    cards.flatMap (·.techTags) = [] := by
  induction cards with
  | nil => rfl
  | cons c cs ih =>
    have hc := h c (List.mem_cons_self c cs)
    have hrest := ih fun x hx => h x (List.mem_cons_of_mem _ hx)
    simp [hc, hrest]

theorem setupFiltering_no_tags (cards : List TechCard)
    (h : ∀ c ∈ cards, c.techTags = []) :
    setupFiltering true cards =
      { hasHeader := true, cards := cards, filterPanel := none } := by
  unfold setupFiltering
  simp [flatMap_techTags_eq_nil cards h, dedupFirst, dedupFirstAux]

theorem singleClick_none (p : SinglePage) (hp : p.filterPanel = none)
    (i : Nat) : singleClick p i = p := by
  unfold singleClick
  rw [hp]

theorem runSingleClicks_none (clicks : List Nat) :
    ∀ p : SinglePage, p.filterPanel = none → runSingleClicks p clicks = p := by
  induction clicks with
  | nil => intro p _; rfl
  | cons i rest ih =>
    intro p hp
    show runSingleClicks (singleClick p i) rest = p
    rw [singleClick_none p hp i]
    exact ih p hp

/-- C10: on a page with a projects header but zero `.tech-tag` elements,
`setupFiltering` returns early: no filter panel (hence no controls and no
click handlers) is created, the cards are untouched, and any sequence of
clicks leaves the page unchanged — filtering is a no-op for the session. -/
theorem setupFiltering_no_tags_noop (cards : List TechCard)
    (h : ∀ c ∈ cards, c.techTags = []) :
    (setupFiltering true cards).filterPanel = none ∧
    (setupFiltering true cards).cards = cards ∧
    (∀ clicks : List Nat,
      runSingleClicks (setupFiltering true cards) clicks =
        setupFiltering true cards) := by
  rw [setupFiltering_no_tags cards h]
  exact ⟨rfl, rfl, fun clicks => runSingleClicks_none clicks _ rfl⟩

/-- Witness for C10 on a concrete tagless page. -/
theorem setupFiltering_no_tags_noop_witness :
    (setupFiltering true
        [{ techTags := [], hidden := false, fadeOut := false,
           animStyle := "" }]).filterPanel = none ∧
    (setupFiltering true
        [{ techTags := [], hidden := false, fadeOut := false,
           animStyle := "" }]).cards =
      [{ techTags := [], hidden := false, fadeOut := false, animStyle := "" }] ∧
    runSingleClicks
        (setupFiltering true
          [{ techTags := [], hidden := false, fadeOut := false,
             animStyle := "" }]) [0, 1, 2] =
      setupFiltering true
        [{ techTags := [], hidden := false, fadeOut := false,
           animStyle := "" }] :=
  ⟨(setupFiltering_no_tags_noop
      [{ techTags := [], hidden := false, fadeOut := false, animStyle := "" }]
      (by decide)).1,
   (setupFiltering_no_tags_noop
      [{ techTags := [], hidden := false, fadeOut := false, animStyle := "" }]
      (by decide)).2.1,
   (setupFiltering_no_tags_noop
      [{ techTags := [], hidden := false, fadeOut := false, animStyle := "" }]
      (by decide)).2.2 [0, 1, 2]⟩

theorem mem_dedupFirstAux (l : List String) :
    ∀ (seen : List String) (x : String),
      x ∈ dedupFirstAux seen l ↔ x ∈ l ∧ x ∉ seen := by
  induction l with
  | nil => simp [dedupFirstAux]
  | cons y ys ih =>
    intro seen x
    unfold dedupFirstAux
    by_cases hy : y ∈ seen
    · rw [if_pos hy, ih]
      simp only [List.mem_cons]
      constructor
      · rintro ⟨hx, hns⟩
        exact ⟨Or.inr hx, hns⟩
      · rintro ⟨rfl | hx, hns⟩
        · exact absurd hy hns
        · exact ⟨hx, hns⟩
    · rw [if_neg hy]
      simp only [List.mem_cons, ih]
      constructor
      · rintro (rfl | ⟨hx, hns⟩)
        · exact ⟨Or.inl rfl, hy⟩
        · exact ⟨Or.inr hx, fun hs => hns (Or.inr hs)⟩
      · rintro ⟨rfl | hx, hns⟩
        · exact Or.inl rfl
        · by_cases hxy : x = y
          · exact Or.inl hxy
          · exact Or.inr ⟨hx, by simp [List.mem_cons, hxy, hns]⟩

theorem mem_dedupFirst (l : List String) (x : String) :
    x ∈ dedupFirst l ↔ x ∈ l := by
  unfold dedupFirst
  rw [mem_dedupFirstAux]
  simp

theorem nodup_dedupFirstAux (l : List String) :
    ∀ seen : List String, (dedupFirstAux seen l).Nodup := by
  induction l with
  | nil => intro seen; simp [dedupFirstAux]
  | cons y ys ih =>
    intro seen
    unfold dedupFirstAux
    by_cases hy : y ∈ seen
    · rw [if_pos hy]
      exact ih seen
    · rw [if_neg hy]
      refine List.nodup_cons.mpr ⟨?_, ih _⟩
      intro hmem
      exact ((mem_dedupFirstAux ys (y :: seen) y).mp hmem).2
        (List.mem_cons_self y seen)

theorem nodup_dedupFirst (l : List String) : (dedupFirst l).Nodup :=
  nodup_dedupFirstAux l []

theorem typeControlValues (cards : List Card) :
    ((initTypeFilters cards).drop 1).map (·.value) =
      List.insertionSort (· ≤ ·) (dedupFirst (typeValues cards)) := by
  show ((List.insertionSort (· ≤ ·) (dedupFirst (typeValues cards))).map
      (fun t => createFilterButton t t false)).map (·.value) = _
  rw [List.map_map]
  exact List.map_id _

theorem techControlValues (cards : List Card) :
    ((initTechFilters cards).drop 1).map (·.value) =
      List.insertionSort (fun a b => techCompare cards a b ≤ 0)
        (dedupFirst (techValues cards)) := by
  show ((List.insertionSort (fun a b => techCompare cards a b ≤ 0)
        (dedupFirst (techValues cards))).map
      (fun t => createFilterButton t t false)).map (·.value) = _
  rw [List.map_map]
  exact List.map_id _

theorem sorted_typeControlValues (cards : List Card) :
    List.Sorted (· ≤ ·) (((initTypeFilters cards).drop 1).map (·.value)) := by
  rw [typeControlValues]
  exact List.sorted_insertionSort _ _

theorem mem_typeControlValues (cards : List Card) (v : String) :
    v ∈ ((initTypeFilters cards).drop 1).map (·.value) ↔
      v ∈ typeValues cards := by
  rw [typeControlValues]
  simp only [List.mem_insertionSort]
  exact mem_dedupFirst _ v

theorem mem_techControlValues (cards : List Card) (v : String) :
    v ∈ ((initTechFilters cards).drop 1).map (·.value) ↔
      v ∈ techValues cards := by
  rw [techControlValues]
  simp only [List.mem_insertionSort]
  exact mem_dedupFirst _ v

theorem ne_empty_of_mem_typeValues (cards : List Card) (v : String)
    (hv : v ∈ typeValues cards) : v ≠ "" := by
  unfold typeValues at hv
  rw [List.mem_filterMap] at hv
  obtain ⟨c, _, hc⟩ := hv
  split at hc
  · split at hc
    · exact absurd hc (by simp)
    · next ht =>
      rw [← Option.some.inj hc]
      exact ht
  · exact absurd hc (by simp)

/-- C4 counterexample: a card whose only tag badge trims to the empty string
makes `initTechFilters` register a control whose value is the empty string —
`technologySet.add(tech)` has no non-empty guard, unlike the type axis. -/
theorem init_controls_empty_tech_value :
    ¬ (∀ b ∈ initTechFilters
          [{ projectType := some "A", tagBadges := [""], hidden := false,
             animStyle := "" }],
        b.value ≠ "") := by
  decide

/-- C4 (amended): at initialization each axis holds one control per distinct
extracted value; the type axis skips missing and empty `data-project-type`
values, so every type control carries a non-empty value; the tech axis
collects every trimmed badge text — including the empty string, which does
produce a control there. -/
theorem init_controls_distinct_values (cards : List Card) :
    ((((initTypeFilters cards).drop 1).map (·.value)).Nodup ∧
      (((initTechFilters cards).drop 1).map (·.value)).Nodup) ∧
    (∀ b ∈ (initTypeFilters cards).drop 1, b.value ≠ "") ∧
    (∀ v : String,
      v ∈ ((initTypeFilters cards).drop 1).map (·.value) ↔
        v ∈ typeValues cards) ∧
    (∀ v : String,
      v ∈ ((initTechFilters cards).drop 1).map (·.value) ↔
        v ∈ techValues cards) := by
  refine ⟨⟨?_, ?_⟩, ?_, mem_typeControlValues cards, mem_techControlValues cards⟩
  · rw [typeControlValues]
    exact (List.perm_insertionSort _ _).nodup_iff.mpr (nodup_dedupFirst _)
  · rw [techControlValues]
    exact (List.perm_insertionSort _ _).nodup_iff.mpr (nodup_dedupFirst _)
  · intro b hb
    have hmem : b.value ∈ ((initTypeFilters cards).drop 1).map (·.value) :=
      List.mem_map_of_mem _ hb
    rw [mem_typeControlValues] at hmem
    exact ne_empty_of_mem_typeValues cards b.value hmem

/-- Witness for C4 (amended) on a concrete card set. -/
theorem init_controls_distinct_values_witness :
    (createFilterButton "A" "A" false).value ≠ "" :=
  (init_controls_distinct_values
      [{ projectType := some "A", tagBadges := [], hidden := false,
         animStyle := "" }]).2.1
    (createFilterButton "A" "A" false) (by decide)

/-- C5 (failing input for the frequency ordering): with badges in DOM order
`["constructor", "x", "x"]`, the badge text `"constructor"` collides with an
`Object.prototype` property, so `techCount["constructor"]` never holds a
number and every comparison against it yields `NaN`, a tie for the sort.
The stable sort therefore emits `"constructor"` (1 occurrence) before `"x"`
(2 occurrences) — not descending by frequency, contradicting the source's
own comment `// Sort by count (descending)`. -/
theorem initTechFilters_protoKey_not_by_frequency :
    (((initTechFilters
        [{ projectType := none, tagBadges := ["constructor", "x", "x"],
           hidden := false, animStyle := "" }]).drop 1).map (·.value) =
      ["constructor", "x"]) ∧
    occurrenceCount
        [{ projectType := none, tagBadges := ["constructor", "x", "x"],
           hidden := false, animStyle := "" }] "constructor" = 1 ∧
    occurrenceCount
        [{ projectType := none, tagBadges := ["constructor", "x", "x"],
           hidden := false, animStyle := "" }] "x" = 2 := by
  decide
